import Mathlib

/-!
Verification of the `mitral-leaflets-3dseg` training-glue layer.

The development shallowly embeds the repository's two components:

* `src/callbacks/saving.py` — `EnhancedModelCheckpoint.__resolve_ckpt_dir`,
  which resolves the checkpoint directory from an explicit override or from
  the first attached logger's metadata; paths are modelled as `pathlib`-style
  pure paths (an absoluteness flag plus a list of segments), with `resolve`
  anchoring relative paths at the current working directory and `expanduser`
  expanding a leading home marker.

* `src/networks/core.py` — `EnhancedLightningModule`: metric-bucket
  construction (`_init_metrics`), the step-end loss reduction and metric
  update (`_step_end`, `_update_metrics`), loss logging (`_log_errs`,
  `training_step`), prediction (`predict_step`) and optimizer construction
  (`configure_optimizers`).  Tensors are modelled as flat lists of rationals,
  Python exceptions as an explicit error type threaded through `Except`, and
  the framework's `log`/`log_dict` calls as emitted `LogEntry` records
  carrying exactly the key and value the code hands to them.
-/

namespace MitralSeg

/-- Python exception kinds distinguished by the code under verification.
`other n` stands for any exception class the code never names explicitly. -/
inductive PyErr where
  | valueError
  | keyError
  | attributeError
  | unboundLocalError
  | other (n : Nat)
deriving DecidableEq, Repr

/-! ## Path model (`pathlib.Path` as used by `saving.py`) -/

/-- A `pathlib`-style pure path: whether it is anchored at the filesystem
root, and its segments. -/
structure PurePath where
  absolute : Bool
  segments : List String
deriving DecidableEq, Repr

namespace PurePath

/-- `Path.joinpath` with a single relative segment, as `saving.py` uses it. -/
def joinpath (p : PurePath) (s : String) : PurePath :=
  ⟨p.absolute, p.segments ++ [s]⟩

/-- `Path.resolve`: make the path absolute by anchoring a relative path at
the current working directory `cwd`. -/
def resolve (cwd : List String) (p : PurePath) : PurePath :=
  if p.absolute then p else ⟨true, cwd ++ p.segments⟩

/-- `Path.expanduser`: replace a leading `~` segment of a relative path by
the home directory.  An absolute path is returned unchanged (in particular a
path that was `resolve`d first keeps any literal `~` buried inside it). -/
def expanduser (home : List String) (p : PurePath) : PurePath :=
  if p.absolute then p
  else
    match p.segments with
    | "~" :: rest => ⟨true, home ++ rest⟩
    | _ => p

end PurePath

/-! ## `EnhancedModelCheckpoint.__resolve_ckpt_dir` (`src/callbacks/saving.py`) -/

/-- The logger attributes `__resolve_ckpt_dir` reads: `logger.name`, the
optional `logger.save_dir`, `logger.experiment.name` (the run's
human-readable name) and `logger.version` (the run ID, stringified by the
f-string in the code). -/
structure Logger where
  name : String
  save_dir : Option PurePath
  experiment_name : String
  version : String
deriving DecidableEq, Repr

/-- The trainer attributes `__resolve_ckpt_dir` reads. -/
structure Trainer where
  default_root_dir : PurePath
  loggers : List Logger
deriving DecidableEq, Repr

/-- `EnhancedModelCheckpoint.__resolve_ckpt_dir` (saving.py lines 23–41).
`dirpath` is `self.dirpath` (the explicit override, if configured).
With an override: `Path(dirpath).resolve().expanduser()` then the final
`return save_dir.resolve().expanduser()`.  Without one: start from
`trainer.default_root_dir`; when at least one logger is attached, prefer its
`save_dir` when present and append `name` and `experiment.name_version`;
finally append `checkpoints` and resolve/expand. -/
def resolveCkptDir (cwd home : List String) (dirpath : Option PurePath)
    (trainer : Trainer) : PurePath :=
  match dirpath with
  | some p =>
      let save_dir := (p.resolve cwd).expanduser home
      (save_dir.resolve cwd).expanduser home
  | none =>
      let save_dir := trainer.default_root_dir
      let save_dir :=
        match trainer.loggers with
        | [] => save_dir
        | l :: _ =>
            let base := match l.save_dir with
              | some d => d
              | none => save_dir
            (base.joinpath l.name).joinpath (l.experiment_name ++ "_" ++ l.version)
      let save_dir := save_dir.joinpath "checkpoints"
      (save_dir.resolve cwd).expanduser home

/-! ## `EnhancedLightningModule` (`src/networks/core.py`): tensors and logging -/

/-- A torch tensor, modelled as a flat list of rational values (the claims
only involve one-dimensional results, for which `len` and `numel` agree). -/
abbrev Tensor := List ℚ

/-- `y.to(torch.bool)`: every nonzero value becomes `True` (1), zero becomes
`False` (0). -/
def toBool (t : Tensor) : Tensor :=
  t.map (fun x => if x = 0 then 0 else 1)

/-- A metric object: called on `(preds, target)`, it either returns a result
tensor or raises a Python exception. -/
abbrev Metric := Tensor → Tensor → Except PyErr Tensor

/-- One entry handed to the framework's `log`/`log_dict`: the key, the value
passed (kept as a tensor: the code passes `val[i]` element-wise for vector
results and the unreduced value otherwise), and the `on_step` flag. -/
structure LogEntry where
  key : String
  value : Tensor
  on_step : Bool
deriving DecidableEq, Repr

/-- The display keys receiving the index offset in `_update_metrics`
(core.py line 85): `k in ["v_hdf95", "v_masd"]`. -/
def distanceKeys : List String := ["v_hdf95", "v_masd"]

/-- The `idx` lambda of core.py line 85: `i + 1` when the display key is
`v_hdf95` or `v_masd`, else `i`. -/
def metricKeyIdx (k : String) (i : Nat) : Nat :=
  if k ∈ distanceKeys then i + 1 else i

/-- The metric call with fallback of core.py lines 77–81: try
`m(preds, y)`; on a `ValueError` retry once with the target cast to bool;
any other exception, and any exception of the retry, propagates. -/
def callMetric (m : Metric) (preds y : Tensor) : Except PyErr Tensor :=
  match m preds y with
  | .ok val => .ok val
  | .error .valueError => m preds (toBool y)
  | .error e => .error e

/-- The logging part of `_update_metrics` (core.py lines 83–89): a result
with more than one element is logged element-wise under `k/idx(i)` keys; a
scalar result is logged under `k` directly. -/
def logMetricVal (k : String) (val : Tensor) (onStep : Bool) : List LogEntry :=
  if val.length > 1 then
    (List.range val.length).map (fun i =>
      ⟨k ++ "/" ++ toString (metricKeyIdx k i), [val.getD i 0], onStep⟩)
  else
    [⟨k, val, onStep⟩]

/-- The loop of `_update_metrics` over the selected bucket's
`(display key, metric)` pairs, collecting the emitted log entries. -/
def updateMetricsLoop (metrics : List (String × Metric)) (onStep : Bool)
    (preds y : Tensor) : Except PyErr (List LogEntry) :=
  match metrics with
  | [] => .ok []
  | (k, m) :: rest =>
      match callMetric m preds y with
      | .error e => .error e
      | .ok val =>
          match updateMetricsLoop rest onStep preds y with
          | .error e => .error e
          | .ok es => .ok (logMetricVal k val onStep ++ es)

/-- The three metric buckets built by `_init_metrics` and read by
`_update_metrics` via `self.metrics["m" + mode]`; `α` is `String` (a metric
class name) right after construction and a semantic `Metric` when the
buckets are exercised. -/
structure MetricBuckets (α : Type) where
  mtrain : List (String × α)
  mval : List (String × α)
  mtest : List (String × α)

/-- `self.metrics[f"m..."]` lookup: the `nn.ModuleDict` holds exactly the
keys `mtrain`, `mval`, `mtest`; any other mode raises a `KeyError`. -/
def selectBucket {α : Type} (b : MetricBuckets α) (mode : String) :
    Except PyErr (List (String × α)) :=
  if mode = "train" then .ok b.mtrain
  else if mode = "val" then .ok b.mval
  else if mode = "test" then .ok b.mtest
  else .error .keyError

/-- `EnhancedLightningModule._update_metrics` (core.py lines 70–89):
select the phase bucket, set `on_step` for the test phase only, and run the
metric loop. -/
def updateMetrics (b : MetricBuckets Metric) (mode : String)
    (preds y : Tensor) : Except PyErr (List LogEntry) :=
  match selectBucket b mode with
  | .error e => .error e
  | .ok metrics => updateMetricsLoop metrics (mode == "test") preds y

/-! ## Step-end loss reduction and loss logging -/

/-- `torch.Tensor.mean()` over a flat tensor: the sum of the elements
divided by their number. -/
def tensorMean (t : Tensor) : ℚ := t.sum / (t.length : ℚ)

/-- The step outputs dict flowing from a step to its step-end: the loss
tensor stored under the phase's loss name, plus `preds` and `target`. -/
structure Outs where
  errs : Tensor
  preds : Tensor
  target : Tensor
deriving DecidableEq, Repr

/-- `EnhancedLightningModule._step_end` (core.py lines 63–67): replace the
loss entry by its mean, then update the phase's metrics; the (possibly
failing) metric update produces the step-end log entries. -/
def stepEnd (b : MetricBuckets Metric) (outs : Outs) (mode : String) :
    Except PyErr (Outs × List LogEntry) :=
  let outs' : Outs := ⟨[tensorMean outs.errs], outs.preds, outs.target⟩
  match updateMetrics b mode outs'.preds outs'.target with
  | .error e => .error e
  | .ok es => .ok (outs', es)

/-- The tensor branch of `EnhancedLightningModule._log_errs` (core.py lines
97–99): `self.log(name, errs, ...)` receives `errs` exactly as passed, and
the returned outputs dict maps `name` to that same value. -/
def logErrs (name : String) (errs : Tensor) (onStep : Bool) :
    LogEntry × Tensor :=
  (⟨name, errs, onStep⟩, errs)

/-- The shared body of `training_step`, `validation_step` and `test_step`
(core.py lines 111–130), given the `(preds, errs)` pair returned by `_step`
(the forward pass, final activation and loss are computed by the externally
supplied network and loss callables): log the loss under the phase's name
and `on_step` flag via `_log_errs`, and assemble the outputs dict. -/
def phaseStep (name : String) (onStep : Bool) (preds errs y : Tensor) :
    LogEntry × Outs :=
  let le := logErrs name errs onStep
  (le.1, ⟨le.2, preds, y⟩)

/-- A phase's step followed by its `*_step_end = _step_end(...)` hook, as
the framework drives them: collects every log entry the code emits for the
step, in order, together with the final outputs. -/
def stepPipeline (b : MetricBuckets Metric) (name : String) (onStep : Bool)
    (mode : String) (preds errs y : Tensor) :
    Except PyErr (List LogEntry × Outs) :=
  let st := phaseStep name onStep preds errs y
  match stepEnd b st.2 mode with
  | .error err => .error err
  | .ok (outs', es) => .ok (st.1 :: es, outs')

/-- `training_step` (core.py lines 111–116: `_log_errs(errs, on_step=True)`
under the default name `loss`) followed by `training_step_end` (lines
102–103: `_step_end(outs)`, name `loss`, mode `train`). -/
def trainStepPipeline (b : MetricBuckets Metric) (preds errs y : Tensor) :
    Except PyErr (List LogEntry × Outs) :=
  stepPipeline b "loss" true "train" preds errs y

/-- `validation_step` (core.py lines 118–123: `_log_errs(errs,
name="v_loss")`, `on_step` defaulting to False) followed by
`validation_step_end` (lines 105–106: `_step_end(outs, "v_loss", "val")`). -/
def valStepPipeline (b : MetricBuckets Metric) (preds errs y : Tensor) :
    Except PyErr (List LogEntry × Outs) :=
  stepPipeline b "v_loss" false "val" preds errs y

/-- `test_step` (core.py lines 125–130: `_log_errs(errs)` with the defaults
name `loss`, `on_step=False`) followed by `test_step_end` (lines 108–109:
`_step_end(outs, mode="test")`). -/
def testStepPipeline (b : MetricBuckets Metric) (preds errs y : Tensor) :
    Except PyErr (List LogEntry × Outs) :=
  stepPipeline b "loss" false "test" preds errs y

/-! ## `_init_metrics`: building the three buckets -/

/-- Modelled from the spec: the repository's `metrics` module (imported by
core.py but absent from the sources) exports `MONAI_METRICS`, the mapping of
MONAI-backed metric classes — per the spec these are the distance-based
segmentation metrics (displayed as `hdf95` and `masd`), computed via
`np.array` and therefore skipped in the train bucket; standard torchmetrics
classes such as `Accuracy` are not among its keys. -/
def MONAI_METRICS : List String :=
  ["MonaiHausdorffDistance95", "MonaiAverageSurfaceDistance"]

/-- The class registry `dict(ispc.getmembers(torchmetrics, ispc.isclass))`
of core.py line 28: the torchmetrics library's exported classes, which
include `Accuracy`. -/
def torchmetricsClasses : List String :=
  ["Accuracy", "Dice", "JaccardIndex", "MeanSquaredError"]

/-- The merged lookup table `all_metrics` of core.py lines 28–29. -/
def allMetricNames : List String := torchmetricsClasses ++ MONAI_METRICS

/-- `build_metric` (core.py lines 34–35): `all_metrics[name](...)` — an
unknown name raises a `KeyError`; the constructed metric object is
represented by its class name. -/
def buildMetric (name : String) : Except PyErr String :=
  if name ∈ allMetricNames then .ok name else .error .keyError

/-- Python `dict.update` with a single key: overwrite in place when the key
is present, append otherwise. -/
def dictUpdate {α : Type} (d : List (String × α)) (k : String) (v : α) :
    List (String × α) :=
  if d.any (fun p => p.1 == k) then
    d.map (fun p => if p.1 == k then (k, v) else p)
  else d ++ [(k, v)]

/-- One metric specification from the `metrics` constructor argument: the
class name and the display name (constructor args/kwargs are forwarded to
the class unchanged and play no role in bucket structure). -/
structure MetricSpec where
  name : String
  display_name : String
deriving DecidableEq, Repr

/-- The body of the `for mode in self.metrics.keys()` loop of
`_init_metrics` (core.py lines 36–44) for one specification, over the modes
in dict order `mtrain`, `mval`, `mtest`: skip the train bucket for MONAI
metrics, and prepend `v_` to the display name in the validation bucket. -/
def addSpec (b : MetricBuckets String) (m : MetricSpec) :
    Except PyErr (MetricBuckets String) :=
  let trainStage : Except PyErr (MetricBuckets String) :=
    if m.name ∈ MONAI_METRICS then .ok b
    else
      match buildMetric m.name with
      | .error e => .error e
      | .ok metric => .ok { b with mtrain := dictUpdate b.mtrain m.display_name metric }
  match trainStage with
  | .error e => .error e
  | .ok b =>
      match buildMetric m.name with
      | .error e => .error e
      | .ok metricV =>
          let b := { b with mval := dictUpdate b.mval ("v_" ++ m.display_name) metricV }
          match buildMetric m.name with
          | .error e => .error e
          | .ok metricT => .ok { b with mtest := dictUpdate b.mtest m.display_name metricT }

/-- `EnhancedLightningModule._init_metrics` (core.py lines 27–44): starting
from three empty buckets, process each metric specification in order. -/
def initMetricsAux (b : MetricBuckets String) :
    List MetricSpec → Except PyErr (MetricBuckets String)
  | [] => .ok b
  | m :: rest =>
      match addSpec b m with
      | .error e => .error e
      | .ok b' => initMetricsAux b' rest

/-- `EnhancedLightningModule._init_metrics` continued: run the
specification loop from three empty buckets. -/
def initMetrics (specs : List MetricSpec) : Except PyErr (MetricBuckets String) :=
  initMetricsAux ⟨[], [], []⟩ specs

/-! ## Module state: construction, `_step` side effect, `predict_step`,
`configure_optimizers` -/

/-- The module attributes the claims depend on.  `preds` models the
attribute `self.preds` read by `predict_step`: `none` means the attribute
was never assigned, so reading it raises an `AttributeError`. -/
structure ModuleState where
  optimizer_config : List (String × String)
  lr_scheduler : Bool
  metrics : MetricBuckets String
  post_process : Option (List Nat)
  preds : Option Tensor

/-- `EnhancedLightningModule.__init__` (core.py lines 15–24): store the
optimizer configuration and scheduler flag, build the metric buckets, and
leave `post_process` unset; no attribute `preds` is ever assigned. -/
def initModule (optimizer : List (String × String)) (lr_sched : Bool)
    (specs : List MetricSpec) : Except PyErr ModuleState :=
  match initMetrics specs with
  | .error e => .error e
  | .ok b => .ok ⟨optimizer, lr_sched, b, none, none⟩

/-- The attribute effect of `EnhancedLightningModule._step` (core.py lines
47–52): on first use, set `post_process` to a hole-filling transform over
the non-background labels `range(1, out_channels)`; the numeric work of the
step is done by the external network and loss callables and touches no
module attribute. -/
def stepStateEffect (s : ModuleState) (out_channels : Nat) : ModuleState :=
  match s.post_process with
  | none => { s with post_process := some (List.range' 1 (out_channels - 1)) }
  | some _ => s

/-- `EnhancedLightningModule.predict_step` (core.py lines 132–135): run
`_step` (whose returned value is discarded), then return `self.preds` —
reading an attribute that was never assigned raises an `AttributeError`. -/
def predictStep (s : ModuleState) (out_channels : Nat) :
    Except PyErr Tensor × ModuleState :=
  let s' := stepStateEffect s out_channels
  match s'.preds with
  | none => (.error .attributeError, s')
  | some p => (.ok p, s')

/-- Python `dict.pop(k)`: return the value at `k` and the dict without it,
or raise a `KeyError` when `k` is absent. -/
def popKey (d : List (String × String)) (k : String) :
    Except PyErr (String × List (String × String)) :=
  match d with
  | [] => .error .keyError
  | (k', v) :: rest =>
      if k' = k then .ok (v, rest)
      else
        match popKey rest k with
        | .error e => .error e
        | .ok (v', rest') => .ok (v', (k', v) :: rest')

/-- The value `configure_optimizers` returns on success: the optimizer
(class name and remaining keyword arguments) and the schedule descriptor
`[..., ("scheduler", LinearCosineLR ...), ("interval", "step")]`. -/
structure OptimResult where
  optimizer : String × List (String × String)
  scheduler : String
  interval : String
deriving DecidableEq, Repr

/-- `EnhancedLightningModule.configure_optimizers` (core.py lines 138–149).
`optims` is the external `dict(ispc.getmembers(optim, ispc.isclass))` of
available torch optimizer class names.  Evaluation order follows the code:
`self.optimizer_config.pop("name")` runs first and mutates the module even
when a later step raises; an unknown name then raises a `KeyError`; when
`self.lr_scheduler` is falsy the single return statement still references
the local `lrs` that only the scheduler branch assigns, raising an
`UnboundLocalError`.  (The scheduler construction itself —
`LinearCosineLR(opt, lr, 100, tot_steps)` with trainer-derived step counts —
is external to the claims and represented by the descriptor's class name.) -/
def configureOptimizers (optims : List String) (s : ModuleState) :
    Except PyErr OptimResult × ModuleState :=
  match popKey s.optimizer_config "name" with
  | .error e => (.error e, s)
  | .ok (name, rest) =>
      let s' := { s with optimizer_config := rest }
      if name ∈ optims then
        if s.lr_scheduler then
          (.ok ⟨(name, rest), "LinearCosineLR", "step"⟩, s')
        else
          (.error .unboundLocalError, s')
      else
        (.error .keyError, s')

/-! ## Path lemmas -/

namespace PurePath

theorem resolve_absolute (cwd : List String) (p : PurePath) :
    (p.resolve cwd).absolute = true := by
  unfold resolve
  by_cases h : p.absolute = true
  · simp [h]
  · simp [h]

theorem expanduser_of_absolute (home : List String) (p : PurePath)
    (h : p.absolute = true) : p.expanduser home = p := by
  unfold expanduser
  simp [h]

theorem resolve_of_absolute (cwd : List String) (p : PurePath)
    (h : p.absolute = true) : p.resolve cwd = p := by
  unfold resolve
  simp [h]

end PurePath

/-! ## Theorems for the checkpoint directory resolver -/

/-- C4: with no explicit override and exactly one attached logger with name
`L`, experiment name `E`, version `V`, and base directory `D` (the logger's
save directory when it exposes one, otherwise the run's default root
directory), the resolved checkpoint directory is `D/L/E_V/checkpoints`,
resolved to an absolute, user-expanded path. -/
theorem resolveCkptDir_one_logger (cwd home : List String) (tr : Trainer)
    (l : Logger) (D : PurePath)
    (hlog : tr.loggers = [l])
    (hD : l.save_dir = some D ∨ (l.save_dir = none ∧ tr.default_root_dir = D)) :
    resolveCkptDir cwd home none tr =
      PurePath.expanduser home (PurePath.resolve cwd
        (((D.joinpath l.name).joinpath
            (l.experiment_name ++ "_" ++ l.version)).joinpath "checkpoints")) := by
  unfold resolveCkptDir
  rcases hD with hD | ⟨hnone, hroot⟩
  · simp [hlog, hD]
  · simp [hlog, hnone, hroot]

/-- Witness for `resolveCkptDir_one_logger` at a concrete trainer whose
single logger exposes a save directory. -/
theorem resolveCkptDir_one_logger_witness :
    resolveCkptDir ["cwd"] ["home"] none
        ⟨⟨true, ["root"]⟩,
         [⟨"wandb", some ⟨true, ["save"]⟩, "run7", "v42"⟩]⟩ =
      ⟨true, ["save", "wandb", "run7_v42", "checkpoints"]⟩ := by
  have h := resolveCkptDir_one_logger ["cwd"] ["home"]
    ⟨⟨true, ["root"]⟩, [⟨"wandb", some ⟨true, ["save"]⟩, "run7", "v42"⟩]⟩
    ⟨"wandb", some ⟨true, ["save"]⟩, "run7", "v42"⟩ ⟨true, ["save"]⟩
    rfl (Or.inl rfl)
  rw [h]
  rfl

/-- C5: with an explicit directory override `P`, the resolved checkpoint
directory is `P` resolved to an absolute, user-expanded path, regardless of
the attached loggers and their metadata, with no further segments appended. -/
theorem resolveCkptDir_override (cwd home : List String) (P : PurePath)
    (tr : Trainer) :
    resolveCkptDir cwd home (some P) tr =
      PurePath.expanduser home (PurePath.resolve cwd P) := by
  have habs : (PurePath.resolve cwd P).absolute = true :=
    PurePath.resolve_absolute cwd P
  simp [resolveCkptDir, PurePath.expanduser_of_absolute home _ habs,
        PurePath.resolve_of_absolute cwd _ habs]

/-- C6: with no explicit override and zero attached loggers, the resolved
checkpoint directory is the default root directory `D` joined with the fixed
`checkpoints` segment, resolved to an absolute, user-expanded path; no error
is raised (the resolver is a total function in this case). -/
theorem resolveCkptDir_no_logger (cwd home : List String) (tr : Trainer)
    (hlog : tr.loggers = []) :
    resolveCkptDir cwd home none tr =
      PurePath.expanduser home (PurePath.resolve cwd
        (tr.default_root_dir.joinpath "checkpoints")) := by
  unfold resolveCkptDir
  simp [hlog]

/-- Witness for `resolveCkptDir_no_logger` at a concrete logger-less
trainer with a relative default root, exercising both `resolve` and
`expanduser`. -/
theorem resolveCkptDir_no_logger_witness :
    resolveCkptDir ["cwd"] ["home"] none ⟨⟨false, ["runs"]⟩, []⟩ =
      ⟨true, ["cwd", "runs", "checkpoints"]⟩ := by
  have h := resolveCkptDir_no_logger ["cwd"] ["home"] ⟨⟨false, ["runs"]⟩, []⟩ rfl
  rw [h]
  rfl

/-! ## Theorems about metric construction, update and logging -/

/-- C7: constructing the module with the single metric specification
`name="Accuracy"`, `display_name="acc"` yields exactly three buckets in
which validation holds the single entry keyed `v_acc` and train and test
each hold the single entry keyed `acc`. -/
theorem initMetrics_accuracy :
    initMetrics [⟨"Accuracy", "acc"⟩] =
      .ok ⟨[("acc", "Accuracy")], [("v_acc", "Accuracy")], [("acc", "Accuracy")]⟩ := by
  rfl

/-- C3: during metric updating, a `ValueError` from the metric call is
recovered by retrying exactly once with the target cast to bool, surfacing
no error when the retry succeeds; an exception of any other kind, and any
exception raised by the retry itself, propagates to the caller. -/
theorem updateMetrics_valueError_fallback (k : String) (m : Metric)
    (onStep : Bool) (preds y v : Tensor) (e : PyErr) :
    (m preds y = .error .valueError → m preds (toBool y) = .ok v →
      updateMetricsLoop [(k, m)] onStep preds y = .ok (logMetricVal k v onStep)) ∧
    (m preds y = .error e → e ≠ .valueError →
      updateMetricsLoop [(k, m)] onStep preds y = .error e) ∧
    (m preds y = .error .valueError → m preds (toBool y) = .error e →
      updateMetricsLoop [(k, m)] onStep preds y = .error e) := by
  refine ⟨?_, ?_, ?_⟩
  · intro h1 h2
    simp [updateMetricsLoop, callMetric, h1, h2, Except.bind]
  · intro h1 h2
    cases e <;>
      first
      | exact absurd rfl h2
      | simp [updateMetricsLoop, callMetric, h1, Except.bind]
  · intro h1 h2
    simp [updateMetricsLoop, callMetric, h1, h2, Except.bind]

/-- Witness for `updateMetrics_valueError_fallback`: three concrete metrics
exercising the recovered-fallback, foreign-exception and failing-retry
branches. -/
theorem updateMetrics_valueError_fallback_witness :
    updateMetricsLoop
        [("dice", fun _ y => if y = [(1 : ℚ)] then Except.ok [7]
                             else Except.error PyErr.valueError)]
        false [1] [2] = .ok [⟨"dice", [7], false⟩] ∧
    updateMetricsLoop [("dice", fun _ _ => Except.error (PyErr.other 0))]
        false [1] [2] = .error (.other 0) ∧
    updateMetricsLoop [("dice", fun _ _ => Except.error PyErr.valueError)]
        false [1] [2] = .error .valueError := by
  refine ⟨?_, ?_, ?_⟩
  · rw [(updateMetrics_valueError_fallback "dice"
        (fun _ y => if y = [(1 : ℚ)] then Except.ok [7]
                    else Except.error PyErr.valueError)
        false [1] [2] [7] PyErr.valueError).1 (by norm_num) (by norm_num [toBool])]
    rfl
  · exact (updateMetrics_valueError_fallback "dice"
        (fun _ _ => Except.error (PyErr.other 0))
        false [1] [2] [7] (PyErr.other 0)).2.1 rfl (by decide)
  · exact (updateMetrics_valueError_fallback "dice"
        (fun _ _ => Except.error PyErr.valueError)
        false [1] [2] [7] PyErr.valueError).2.2 rfl rfl

/-- C1 (amended): a metric whose (possibly fallback-recovered) call returns
a vector of length `n > 1` contributes exactly `n` log entries, keyed
`k/0 .. k/(n-1)` — except that when the bucket's display key `k` is
`v_hdf95` or `v_masd` (which only the validation bucket produces) the keys
are `k/1 .. k/n`.  In the train and test phases the distance metrics'
display keys carry no `v_` marker, so no offset applies there. -/
theorem updateMetricsLoop_vector_keys (k : String) (m : Metric)
    (onStep : Bool) (preds y val : Tensor)
    (hcall : callMetric m preds y = .ok val) (hlen : 1 < val.length) :
    (updateMetricsLoop [(k, m)] onStep preds y).map (fun es => es.map LogEntry.key) =
      .ok ((List.range val.length).map (fun i =>
        k ++ "/" ++ toString (if k = "v_hdf95" ∨ k = "v_masd" then i + 1 else i))) := by
  simp [updateMetricsLoop, hcall, logMetricVal, hlen, metricKeyIdx, distanceKeys,
        Except.bind, Except.map, List.map_map, Function.comp]

/-- Witness for `updateMetricsLoop_vector_keys`: a validation-bucket
distance metric returning a length-3 vector is logged under keys
`v_hdf95/1`, `v_hdf95/2`, `v_hdf95/3`. -/
theorem updateMetricsLoop_vector_keys_witness :
    (updateMetricsLoop [("v_hdf95", fun _ _ => Except.ok [3, 5, 8])]
        false [1] [1]).map (fun es => es.map LogEntry.key) =
      .ok ((List.range ([(3 : ℚ), 5, 8].length)).map (fun i =>
        "v_hdf95" ++ "/" ++
          toString (if "v_hdf95" = "v_hdf95" ∨ "v_hdf95" = "v_masd"
                    then i + 1 else i))) := by
  exact updateMetricsLoop_vector_keys "v_hdf95"
    (fun _ _ => Except.ok [3, 5, 8]) false [1] [1] [3, 5, 8] rfl (by norm_num)

/-- C1 counterexample: in the test phase the distance metric runs under the
unprefixed display key `hdf95`, so a length-2 vector result is logged under
keys `hdf95/0` and `hdf95/1` — not `hdf95/1` and `hdf95/2` as the claim's
`name/1..n` indexing for distance metrics in every phase would require. -/
theorem updateMetrics_test_distance_offset_cex :
    (updateMetrics ⟨[], [], [("hdf95", fun _ _ => Except.ok [3, 5])]⟩
        "test" [1] [1]).map (fun es => es.map LogEntry.key) =
      .ok ["hdf95/0", "hdf95/1"] ∧
    (["hdf95/0", "hdf95/1"] : List String) ≠ ["hdf95/1", "hdf95/2"] := by
  refine ⟨rfl, by decide⟩

/-- C2 counterexample: for the train step with the two-element loss tensor
`[0, 2]` (and no metrics), the single loss entry handed to the logging call
carries the unreduced tensor `[0, 2]` — which is not the scalar mean `1`;
the mean only replaces the loss entry of the returned step outputs. -/
theorem trainStep_logged_loss_cex :
    trainStepPipeline ⟨[], [], []⟩ [1] [0, 2] [1] =
      .ok ([⟨"loss", [0, 2], true⟩], ⟨[1], [1], [1]⟩) ∧
    tensorMean [0, 2] = 1 ∧
    (([0, 2] : Tensor) ≠ [(1 : ℚ)]) := by
  have h1 : tensorMean [0, 2] = 1 := by norm_num [tensorMean]
  refine ⟨?_, h1, by decide⟩
  simp [trainStepPipeline, stepPipeline, phaseStep, logErrs, stepEnd,
        updateMetrics, selectBucket, updateMetricsLoop, h1]

/-- For any phase's step/step-end pipeline: the step's loss log entry
carries the name, the unreduced loss tensor and the `on_step` flag the step
hands to `_log_errs`, and the step-end stage replaces the returned outputs'
loss entry by the tensor's mean. -/
theorem stepPipeline_spec (b : MetricBuckets Metric) (name : String)
    (onStep : Bool) (mode : String) (preds errs y : Tensor)
    (entries : List LogEntry) (outs' : Outs)
    (hrun : stepPipeline b name onStep mode preds errs y = .ok (entries, outs')) :
    entries.head? = some ⟨name, errs, onStep⟩ ∧
    outs'.errs = [tensorMean errs] := by
  simp only [stepPipeline, phaseStep, logErrs] at hrun
  cases h : stepEnd b ⟨errs, preds, y⟩ mode with
  | error e => rw [h] at hrun; exact absurd hrun (by simp)
  | ok pr =>
      obtain ⟨o, es⟩ := pr
      rw [h] at hrun
      simp only [stepEnd] at h
      cases h2 : updateMetrics b mode preds y with
      | error e => rw [h2] at h; exact absurd h (by simp)
      | ok es2 =>
          rw [h2] at h
          simp only [Except.ok.injEq, Prod.mk.injEq] at h hrun
          obtain ⟨ho, hes⟩ := h
          obtain ⟨hentries, houts⟩ := hrun
          subst houts
          rw [← ho, ← hentries]
          exact ⟨rfl, rfl⟩

/-- C2 (amended): for a loss tensor with more than one element produced by
a train, validation, or test step, the step's single loss log entry carries
the unreduced loss tensor (under `loss`/`on_step=True`, `v_loss`/False and
`loss`/False respectively) — which, having more than one element, is not
the singleton scalar mean — while the step-end stage of every phase
replaces the loss entry of the step outputs by the arithmetic mean of the
tensor's elements. -/
theorem stepPipelines_loss_mean (b : MetricBuckets Metric)
    (preds errs y : Tensor)
    (tEntries vEntries teEntries : List LogEntry) (tOuts vOuts teOuts : Outs)
    (hlen : 1 < errs.length)
    (htrain : trainStepPipeline b preds errs y = .ok (tEntries, tOuts))
    (hval : valStepPipeline b preds errs y = .ok (vEntries, vOuts))
    (htest : testStepPipeline b preds errs y = .ok (teEntries, teOuts)) :
    tEntries.head? = some ⟨"loss", errs, true⟩ ∧
    vEntries.head? = some ⟨"v_loss", errs, false⟩ ∧
    teEntries.head? = some ⟨"loss", errs, false⟩ ∧
    errs ≠ [tensorMean errs] ∧
    tOuts.errs = [errs.sum / (errs.length : ℚ)] ∧
    vOuts.errs = [errs.sum / (errs.length : ℚ)] ∧
    teOuts.errs = [errs.sum / (errs.length : ℚ)] := by
  have hne : errs ≠ [tensorMean errs] := by
    intro hcontra
    rw [hcontra] at hlen
    simp at hlen
  have ht := stepPipeline_spec b "loss" true "train" preds errs y
    tEntries tOuts htrain
  have hv := stepPipeline_spec b "v_loss" false "val" preds errs y
    vEntries vOuts hval
  have hte := stepPipeline_spec b "loss" false "test" preds errs y
    teEntries teOuts htest
  exact ⟨ht.1, hv.1, hte.1, hne, ht.2, hv.2, hte.2⟩

/-- Witness for `stepPipelines_loss_mean` at the concrete loss tensor
`[0, 2]` with empty metric buckets, run through all three phases. -/
theorem stepPipelines_loss_mean_witness :
    ([⟨"loss", ([0, 2] : Tensor), true⟩] : List LogEntry).head? =
      some ⟨"loss", [0, 2], true⟩ ∧
    ([⟨"v_loss", ([0, 2] : Tensor), false⟩] : List LogEntry).head? =
      some ⟨"v_loss", [0, 2], false⟩ ∧
    ([⟨"loss", ([0, 2] : Tensor), false⟩] : List LogEntry).head? =
      some ⟨"loss", [0, 2], false⟩ ∧
    ([0, 2] : Tensor) ≠ [tensorMean [0, 2]] ∧
    (⟨[1], [1], [1]⟩ : Outs).errs =
      [([0, 2] : Tensor).sum / ((([0, 2] : Tensor).length : ℚ))] ∧
    (⟨[1], [1], [1]⟩ : Outs).errs =
      [([0, 2] : Tensor).sum / ((([0, 2] : Tensor).length : ℚ))] ∧
    (⟨[1], [1], [1]⟩ : Outs).errs =
      [([0, 2] : Tensor).sum / ((([0, 2] : Tensor).length : ℚ))] :=
  stepPipelines_loss_mean ⟨[], [], []⟩ [1] [0, 2] [1]
    [⟨"loss", [0, 2], true⟩] [⟨"v_loss", [0, 2], false⟩]
    [⟨"loss", [0, 2], false⟩] ⟨[1], [1], [1]⟩ ⟨[1], [1], [1]⟩ ⟨[1], [1], [1]⟩
    (by norm_num)
    (by
      have h1 : tensorMean [0, 2] = 1 := by norm_num [tensorMean]
      simp [trainStepPipeline, stepPipeline, phaseStep, logErrs, stepEnd,
            updateMetrics, selectBucket, updateMetricsLoop, h1])
    (by
      have h1 : tensorMean [0, 2] = 1 := by norm_num [tensorMean]
      simp [valStepPipeline, stepPipeline, phaseStep, logErrs, stepEnd,
            updateMetrics, selectBucket, updateMetricsLoop, h1])
    (by
      have h1 : tensorMean [0, 2] = 1 := by norm_num [tensorMean]
      simp [testStepPipeline, stepPipeline, phaseStep, logErrs, stepEnd,
            updateMetrics, selectBucket, updateMetricsLoop, h1])

/-! ## Theorems for `configure_optimizers` and `predict_step` -/

theorem popKey_of_not_mem (d : List (String × String)) (k : String)
    (h : k ∉ d.map Prod.fst) : popKey d k = .error .keyError := by
  induction d with
  | nil => rfl
  | cons p rest ih =>
      obtain ⟨k', v⟩ := p
      have hk : ¬(k' = k) := by
        intro hkk
        exact h (by simp [hkk])
      have hrest : k ∉ rest.map Prod.fst := by
        intro hm
        exact h (by simp [hm])
      simp [popKey, hk, ih hrest]

theorem popKey_removes (d : List (String × String)) (k v : String)
    (rest : List (String × String))
    (hnodup : (d.map Prod.fst).Nodup)
    (h : popKey d k = .ok (v, rest)) : k ∉ rest.map Prod.fst := by
  induction d generalizing v rest with
  | nil => simp [popKey] at h
  | cons p tl ih =>
      obtain ⟨k', v'⟩ := p
      simp only [List.map_cons, List.nodup_cons] at hnodup
      obtain ⟨hk', htl⟩ := hnodup
      by_cases hkk : k' = k
      · subst hkk
        simp only [popKey, eq_self_iff_true, if_true, Except.ok.injEq,
                   Prod.mk.injEq] at h
        obtain ⟨_, hrest⟩ := h
        subst hrest
        exact hk'
      · simp only [popKey, if_neg hkk] at h
        cases hp : popKey tl k with
        | error e => rw [hp] at h; exact absurd h (by simp)
        | ok pr =>
            obtain ⟨v2, rest2⟩ := pr
            rw [hp] at h
            simp only [Except.ok.injEq, Prod.mk.injEq] at h
            obtain ⟨_, hrest⟩ := h
            subst hrest
            intro hm
            simp only [List.map_cons, List.mem_cons] at hm
            rcases hm with hm | hm
            · exact hkk hm.symm
            · exact ih v2 rest2 htl hp hm

/-- C8: when the optimizer configuration holds a `name` entry naming an
available optimizer class and rate-scheduling is enabled, constructing the
optimizer succeeds but removes the `name` key from the configuration
mapping held by the module, so a second call of the hook on the resulting
module raises a `KeyError`. -/
theorem configureOptimizers_consumes_name (optims : List String)
    (s : ModuleState) (name : String) (rest : List (String × String))
    (hnodup : (s.optimizer_config.map Prod.fst).Nodup)
    (hpop : popKey s.optimizer_config "name" = .ok (name, rest))
    (hopt : name ∈ optims) (hsched : s.lr_scheduler = true) :
    (configureOptimizers optims s).1 =
      .ok ⟨(name, rest), "LinearCosineLR", "step"⟩ ∧
    "name" ∉ ((configureOptimizers optims s).2).optimizer_config.map Prod.fst ∧
    (configureOptimizers optims ((configureOptimizers optims s).2)).1 =
      .error .keyError := by
  have hrm : "name" ∉ rest.map Prod.fst :=
    popKey_removes s.optimizer_config "name" name rest hnodup hpop
  have hsnd : (configureOptimizers optims s).2 =
      { s with optimizer_config := rest } := by
    simp [configureOptimizers, hpop, hopt, hsched]
  refine ⟨?_, ?_, ?_⟩
  · simp [configureOptimizers, hpop, hopt, hsched]
  · rw [hsnd]
    exact hrm
  · rw [hsnd]
    simp [configureOptimizers, popKey_of_not_mem rest "name" hrm]

/-- Witness for `configureOptimizers_consumes_name`: a concrete module with
`Adam` plus one keyword argument. -/
theorem configureOptimizers_consumes_name_witness :
    (configureOptimizers ["Adam", "SGD"]
        ⟨[("name", "Adam"), ("lr", "0.001")], true, ⟨[], [], []⟩, none, none⟩).1 =
      .ok ⟨("Adam", [("lr", "0.001")]), "LinearCosineLR", "step"⟩ ∧
    "name" ∉ ((configureOptimizers ["Adam", "SGD"]
        ⟨[("name", "Adam"), ("lr", "0.001")], true, ⟨[], [], []⟩,
         none, none⟩).2).optimizer_config.map Prod.fst ∧
    (configureOptimizers ["Adam", "SGD"]
        ((configureOptimizers ["Adam", "SGD"]
          ⟨[("name", "Adam"), ("lr", "0.001")], true, ⟨[], [], []⟩,
           none, none⟩).2)).1 = .error .keyError :=
  configureOptimizers_consumes_name ["Adam", "SGD"]
    ⟨[("name", "Adam"), ("lr", "0.001")], true, ⟨[], [], []⟩, none, none⟩
    "Adam" [("lr", "0.001")] (by simp) rfl (by simp) rfl

/-- C9: on a module whose optimizer configuration names an available
optimizer class but whose rate-scheduling flag is disabled, the hook raises
an `UnboundLocalError`: its sole return statement references the scheduler
local that only the enabled branch assigns. -/
theorem configureOptimizers_no_scheduler (optims : List String)
    (s : ModuleState) (name : String) (rest : List (String × String))
    (hpop : popKey s.optimizer_config "name" = .ok (name, rest))
    (hopt : name ∈ optims) (hsched : s.lr_scheduler = false) :
    (configureOptimizers optims s).1 = .error .unboundLocalError := by
  simp [configureOptimizers, hpop, hopt, hsched]

/-- Witness for `configureOptimizers_no_scheduler` at a concrete module
with scheduling disabled. -/
theorem configureOptimizers_no_scheduler_witness :
    (configureOptimizers ["Adam", "SGD"]
        ⟨[("name", "Adam")], false, ⟨[], [], []⟩, none, none⟩).1 =
      .error .unboundLocalError :=
  configureOptimizers_no_scheduler ["Adam", "SGD"]
    ⟨[("name", "Adam")], false, ⟨[], [], []⟩, none, none⟩
    "Adam" [] rfl (by simp) rfl

/-- C10: the attribute `self.preds` is assigned by no method of the module
— construction leaves it unset, and the attribute effects of `_step` and
`configure_optimizers` preserve that — so `predict_step`, which returns
`self.preds` after discarding `_step`'s result, raises an `AttributeError`
on every batch. -/
theorem predictStep_attribute_error (cfg : List (String × String))
    (lr_sched : Bool) (specs : List MetricSpec) (optims : List String)
    (s0 s : ModuleState) (oc : Nat)
    (hinit : initModule cfg lr_sched specs = .ok s0)
    (hpreds : s.preds = none) :
    s0.preds = none ∧
    (stepStateEffect s oc).preds = none ∧
    ((configureOptimizers optims s).2).preds = none ∧
    (predictStep s oc).1 = .error .attributeError := by
  have hse : (stepStateEffect s oc).preds = none := by
    unfold stepStateEffect
    cases hp : s.post_process <;> simp [hpreds]
  refine ⟨?_, hse, ?_, ?_⟩
  · unfold initModule at hinit
    cases h : initMetrics specs with
    | error e => rw [h] at hinit; exact absurd hinit (by simp)
    | ok b =>
        rw [h] at hinit
        simp only [Except.ok.injEq] at hinit
        rw [← hinit]
  · unfold configureOptimizers
    cases hp : popKey s.optimizer_config "name" with
    | error e => exact hpreds
    | ok pr =>
        obtain ⟨nm, rest⟩ := pr
        by_cases ho : nm ∈ optims <;> by_cases hs : s.lr_scheduler <;>
          simp [ho, hs, hpreds]
  · simp [predictStep, hse]

/-- Witness for `predictStep_attribute_error` at a freshly constructed
concrete module. -/
theorem predictStep_attribute_error_witness :
    (⟨[("name", "Adam")], true, ⟨[("acc", "Accuracy")], [("v_acc", "Accuracy")],
        [("acc", "Accuracy")]⟩, none, none⟩ : ModuleState).preds = none ∧
    (stepStateEffect
      ⟨[("name", "Adam")], true, ⟨[], [], []⟩, none, none⟩ 4).preds = none ∧
    ((configureOptimizers ["Adam"]
      ⟨[("name", "Adam")], true, ⟨[], [], []⟩, none, none⟩).2).preds = none ∧
    (predictStep ⟨[("name", "Adam")], true, ⟨[], [], []⟩, none, none⟩ 4).1 =
      .error .attributeError :=
  predictStep_attribute_error [("name", "Adam")] true [⟨"Accuracy", "acc"⟩]
    ["Adam"]
    ⟨[("name", "Adam")], true, ⟨[("acc", "Accuracy")], [("v_acc", "Accuracy")],
        [("acc", "Accuracy")]⟩, none, none⟩
    ⟨[("name", "Adam")], true, ⟨[], [], []⟩, none, none⟩ 4 rfl rfl

end MitralSeg
